import Mathlib

/-!
Shallow embedding of `src/tap-bridge/examples/tap-csma-virtual-machine.cc`.

The program is a small interactive controller around an ns-3 real-time
simulation:

* `createSimulation(delay, n_nodes)` (the worker body) issues a fixed
  sequence of calls into the ns-3 engine: it binds the simulator
  implementation to `ns3::RealtimeSimulatorImpl`, binds `ChecksumEnabled`
  to `false`, creates `n_nodes` nodes, sets the CSMA channel `Delay`
  attribute to `MilliSeconds(delay)`, installs one CSMA channel over all
  nodes, bridges node `i` to the tap device named `sprintf("tap%d-ns", i)`
  for `i = 0 .. n_nodes-1`, then calls `Simulator::Run()` and
  `Simulator::Destroy()`.  We embed it as the list of engine calls it
  performs, in order.

* `start_thread` / `stop_thread` / `restart_thread` manipulate a single
  global `pthread_t native_handler` slot.  We embed the controller as a
  state machine: the state holds the handle slot, a fresh-thread-id
  counter, the set of worker threads spawned and not yet cancelled
  (cancellation via `pthread_cancel` is modelled as immediately
  effective, matching the spec's status abstraction in which
  `status = Stopped` as soon as `stop` returns), and the trace of
  controller-issued calls (thread spawn/detach, `pthread_cancel`,
  `Simulator::Stop`, `Simulator::Destroy`).

* `main` initialises `n_nodes = 3`, `delay = 0`, calls `start_thread`,
  then loops forever reading a token with `scanf("%s", ...)` and
  dispatching on `strcmp` against `"stop"`, `"chgd"`, `"chgn"`; the
  integer reads of `chgd`/`chgn` are modelled by an integer input stream
  `ints : Nat → Int` together with a read position.  The three `if`s in
  the source are not chained with `else`, but a token compares equal to
  at most one of the three literals and no branch modifies the token, so
  the sequential `if`s below are an exact translation.
-/

namespace TapCsma

/-- Conversion of a C `int` argument to `uint32_t`, as performed by
`NodeContainer::Create(uint32_t)` when `createSimulation` passes it the
`int` value `n_nodes`. -/
def u32 (x : Int) : Nat := (x % (2 : Int) ^ 32).toNat

/-- The tap device name built by `sprintf(str, "tap%d-ns", i)` (the loop
index `i` is non-negative whenever the loop body runs). -/
def tapName (i : Nat) : String := "tap" ++ toString i ++ "-ns"

/-- One call into the ns-3 engine, as issued by `createSimulation`. -/
inductive EngineEvent where
  | bindSimulatorImpl (impl : String)
  | bindChecksum (enabled : Bool)
  | createNodes (n : Nat)
  | setChannelDelayMillis (d : Int)
  | installCsma
  | setDeviceName (s : String)
  | installTap (node : Nat) (name : String)
  | simRun
  | simDestroy
deriving DecidableEq

/-- The bridging `for` loop of `createSimulation`: for each
`i = 0 .. n-1`, set the `DeviceName` attribute to `tap<i>-ns` and call
`tapBridge.Install(nodes.Get(i), devices.Get(i))`.  The C++ loop
`for (int i = 0; i < n_nodes; i++)` runs `max n_nodes 0` times, which is
`Int.toNat n_nodes`; the caller passes that value here. -/
def tapLoop (n : Nat) : List EngineEvent :=
  (List.range n).flatMap fun i =>
    [.setDeviceName (tapName i), .installTap i (tapName i)]

/-- `createSimulation(int delay, int n_nodes)`: the engine calls issued
by the worker thread, in source order. -/
def createSimulation (delay : Int) (n_nodes : Int) : List EngineEvent :=
  [.bindSimulatorImpl "ns3::RealtimeSimulatorImpl",
   .bindChecksum false,
   .createNodes (u32 n_nodes),
   .setChannelDelayMillis delay,
   .installCsma]
  ++ tapLoop n_nodes.toNat
  ++ [.simRun, .simDestroy]

/-- `ns3task(int delay, int n_nodes)` just forwards to
`createSimulation`. -/
def ns3task (delay : Int) (n_nodes : Int) : List EngineEvent :=
  createSimulation delay n_nodes

/-- The `createNodes` arguments occurring in an engine trace. -/
def nodeCreations (tr : List EngineEvent) : List Nat :=
  tr.filterMap fun e =>
    match e with
    | .createNodes n => some n
    | _ => none

/-- The channel `Delay` attribute values occurring in an engine trace. -/
def channelDelays (tr : List EngineEvent) : List Int :=
  tr.filterMap fun e =>
    match e with
    | .setChannelDelayMillis d => some d
    | _ => none

/-- Whether an engine event is the installation of the (single, shared)
CSMA channel. -/
def isChannelInstall (e : EngineEvent) : Bool :=
  match e with
  | .installCsma => true
  | _ => false

/-- How many CSMA channels an engine trace installs. -/
def channelInstalls (tr : List EngineEvent) : Nat :=
  tr.countP isChannelInstall

/-- The tap-bridge installations of an engine trace, in order:
(node index, tap device name). -/
def tapInstalls (tr : List EngineEvent) : List (Nat × String) :=
  tr.filterMap fun e =>
    match e with
    | .installTap i name => some (i, name)
    | _ => none

/-- One controller-issued call: spawning/detaching a worker thread,
`pthread_cancel`, `Simulator::Stop`, `Simulator::Destroy`. -/
inductive CEvent where
  | spawnWorker (delay : Int) (n_nodes : Int) (tid : Nat)
  | detach (tid : Nat)
  | cancel (tid : Nat)
  | simStop
  | simDestroy
deriving DecidableEq

/-- Controller state.  `native_handler` is the single global
`pthread_t` slot; `nextTid` is a fresh-identifier counter for spawned
threads; `live` is the list of worker threads spawned and not yet
cancelled (cancellation modelled as immediately effective); `trace` is
the list of controller-issued calls so far. -/
structure ControllerState where
  nextTid : Nat
  native_handler : Nat
  live : List Nat
  trace : List CEvent
deriving DecidableEq

/-- The state at program load: the global `pthread_t native_handler` is
zero-initialised, no thread has been spawned. -/
def initController : ControllerState :=
  { nextTid := 1, native_handler := 0, live := [], trace := [] }

/-- `start_thread(int delay, int n_nodes)`: construct
`std::thread thrd(ns3task, delay, n_nodes)`, store
`thrd.native_handle()` into the global `native_handler`, then
`thrd.detach()`.  There is no validation and no failure path. -/
def start_thread (delay n_nodes : Int) (s : ControllerState) : ControllerState :=
  { nextTid := s.nextTid + 1
    native_handler := s.nextTid
    live := s.nextTid :: s.live
    trace := s.trace ++ [.spawnWorker delay n_nodes s.nextTid, .detach s.nextTid] }

/-- `stop_thread()`: `pthread_cancel(native_handler)`, then
`Simulator::Stop()`, then `Simulator::Destroy()`, in that order, all
from the calling (main) thread.  The cancelled handle is removed from
the live set if it is live; the calls are issued unconditionally. -/
def stop_thread (s : ControllerState) : ControllerState :=
  { s with
    live := s.live.erase s.native_handler
    trace := s.trace ++ [.cancel s.native_handler, .simStop, .simDestroy] }

/-- `restart_thread(int delay, int n_nodes)`: `stop_thread()` followed by
`start_thread(delay, n_nodes)`. -/
def restart_thread (delay n_nodes : Int) (s : ControllerState) : ControllerState :=
  start_thread delay n_nodes (stop_thread s)

/-- Session status in the spec's sense. -/
inductive Status where
  | Stopped
  | Running
deriving DecidableEq

/-- Derived session status: `Running` iff some spawned worker has not
been cancelled. -/
def status (s : ControllerState) : Status :=
  if s.live = [] then .Stopped else .Running

/-- The configuration `(delay, n_nodes)` carried by the most recent
worker spawn in a controller trace, if any. -/
def lastSpawnCfg (tr : List CEvent) : Option (Int × Int) :=
  tr.foldl
    (fun acc e =>
      match e with
      | .spawnWorker d n _ => some (d, n)
      | _ => acc)
    none

/-- The thread id of the most recent worker spawn in a controller
trace, if any. -/
def lastSpawnTid (tr : List CEvent) : Option Nat :=
  tr.foldl
    (fun acc e =>
      match e with
      | .spawnWorker _ _ t => some t
      | _ => acc)
    none

/-- State of `main`'s command loop: the local variables `delay` and
`n_nodes`, plus the controller state they act on. -/
structure LoopState where
  delay : Int
  n_nodes : Int
  ctrl : ControllerState
deriving DecidableEq

/-- One iteration of `main`'s `for (;;)` loop, given the token read by
`scanf("%s", in)` and the integer input stream (`ints` with read
position `pos`) for the `scanf("%d", ...)` reads of `chgd`/`chgn`.
Returns the new loop state and the new stream position. -/
def loopStep (tok : String) (ints : Nat → Int) (pos : Nat) (ls : LoopState) :
    LoopState × Nat :=
  let (ls1, p1) :=
    if tok = "stop" then
      ({ ls with ctrl := stop_thread ls.ctrl }, pos)
    else (ls, pos)
  let (ls2, p2) :=
    if tok = "chgd" then
      let d := ints p1
      ({ ls1 with delay := d, ctrl := restart_thread d ls1.n_nodes ls1.ctrl }, p1 + 1)
    else (ls1, p1)
  let (ls3, p3) :=
    if tok = "chgn" then
      let n := ints p2
      ({ ls2 with n_nodes := n, ctrl := restart_thread ls2.delay n ls2.ctrl }, p2 + 1)
    else (ls2, p2)
  (ls3, p3)

/-- Run the command loop over a finite list of input tokens. -/
def runLoop (toks : List String) (ints : Nat → Int) (pos : Nat) (ls : LoopState) :
    LoopState × Nat :=
  match toks with
  | [] => (ls, pos)
  | t :: ts =>
    let (ls2, p2) := loopStep t ints pos ls
    runLoop ts ints p2 ls2

/-- The state of `main` at the top of its command loop, before the
first prompt: `n_nodes = 3`, `delay = 0`, and `start_thread(0, 3)` has
already run. -/
def mainInit : LoopState :=
  { delay := 0, n_nodes := 3, ctrl := start_thread 0 3 initController }

/-- A loop state is reachable if some finite token/integer input drives
`main` from its initial state to it. -/
def Reachable (ls : LoopState) : Prop :=
  ∃ toks ints pos, runLoop toks ints 0 mainInit = (ls, pos)

/-- Controller invariant maintained by the command loop: the live set
is empty or exactly the thread in the handle slot, and the handle slot
holds the id of the most recently spawned worker. -/
def CInv (s : ControllerState) : Prop :=
  (s.live = [] ∨ s.live = [s.native_handler]) ∧
  lastSpawnTid s.trace = some s.native_handler

/-! ### Helper lemmas -/

lemma tapInstalls_flatMap (l : List Nat) :
    tapInstalls (l.flatMap fun i =>
        [EngineEvent.setDeviceName (tapName i), EngineEvent.installTap i (tapName i)]) =
      l.map fun i => (i, tapName i) := by
  induction l with
  | nil => rfl
  | cons a t ih => simpa [tapInstalls, List.filterMap_cons] using ih

lemma tapInstalls_tapLoop (n : Nat) :
    tapInstalls (tapLoop n) = (List.range n).map fun i => (i, tapName i) := by
  simpa [tapLoop] using tapInstalls_flatMap (List.range n)

lemma nodeCreations_tapLoop (n : Nat) : nodeCreations (tapLoop n) = [] := by
  unfold tapLoop
  induction List.range n with
  | nil => rfl
  | cons a t ih => simpa [nodeCreations, List.filterMap_cons] using ih

lemma channelDelays_tapLoop (n : Nat) : channelDelays (tapLoop n) = [] := by
  unfold tapLoop
  induction List.range n with
  | nil => rfl
  | cons a t ih => simpa [channelDelays, List.filterMap_cons] using ih

lemma channelInstalls_tapLoop (n : Nat) : channelInstalls (tapLoop n) = 0 := by
  unfold channelInstalls tapLoop
  induction List.range n with
  | nil => rfl
  | cons a t ih => simpa [List.countP_cons, isChannelInstall] using ih

lemma lastSpawnCfg_append_stop (tr : List CEvent) (h : Nat) :
    lastSpawnCfg (tr ++ [.cancel h, .simStop, .simDestroy]) = lastSpawnCfg tr := by
  simp [lastSpawnCfg, List.foldl_append]

lemma lastSpawnCfg_append_start (tr : List CEvent) (d n : Int) (t : Nat) :
    lastSpawnCfg (tr ++ [.spawnWorker d n t, .detach t]) = some (d, n) := by
  simp [lastSpawnCfg, List.foldl_append]

lemma lastSpawnTid_append_stop (tr : List CEvent) (h : Nat) :
    lastSpawnTid (tr ++ [.cancel h, .simStop, .simDestroy]) = lastSpawnTid tr := by
  simp [lastSpawnTid, List.foldl_append]

lemma lastSpawnTid_append_start (tr : List CEvent) (d n : Int) (t : Nat) :
    lastSpawnTid (tr ++ [.spawnWorker d n t, .detach t]) = some t := by
  simp [lastSpawnTid, List.foldl_append]

lemma lastSpawnCfg_start (d n : Int) (s : ControllerState) :
    lastSpawnCfg (start_thread d n s).trace = some (d, n) :=
  lastSpawnCfg_append_start s.trace d n s.nextTid

lemma lastSpawnCfg_restart (d n : Int) (s : ControllerState) :
    lastSpawnCfg (restart_thread d n s).trace = some (d, n) :=
  lastSpawnCfg_start d n (stop_thread s)

lemma status_start (d n : Int) (s : ControllerState) :
    status (start_thread d n s) = .Running := by
  simp [status, start_thread]

lemma status_restart (d n : Int) (s : ControllerState) :
    status (restart_thread d n s) = .Running :=
  status_start d n (stop_thread s)

lemma cinv_stop (s : ControllerState) (h : CInv s) : CInv (stop_thread s) := by
  obtain ⟨hlive, htid⟩ := h
  constructor
  · rcases hlive with h0 | h1
    · left; simp [stop_thread, h0]
    · left; simp [stop_thread, h1]
  · simpa [stop_thread, lastSpawnTid_append_stop] using htid

lemma cinv_start_of_stopped (d n : Int) (s : ControllerState) (h : s.live = []) :
    CInv (start_thread d n s) := by
  constructor
  · right; simp [start_thread, h]
  · exact lastSpawnTid_append_start s.trace d n s.nextTid

lemma cinv_restart (d n : Int) (s : ControllerState) (h : CInv s) :
    CInv (restart_thread d n s) := by
  have hstop := cinv_stop s h
  apply cinv_start_of_stopped
  rcases hstop.1 with h0 | h1
  · exact h0
  · rcases h.1 with h2 | h3
    · simp [stop_thread, h2] at h1 ⊢
    · simp [stop_thread, h3] at h1

lemma cinv_loopStep (tok : String) (ints : Nat → Int) (pos : Nat) (ls : LoopState)
    (h : CInv ls.ctrl) : CInv (loopStep tok ints pos ls).1.ctrl := by
  unfold loopStep
  by_cases h1 : tok = "stop" <;> by_cases h2 : tok = "chgd" <;>
    by_cases h3 : tok = "chgn" <;>
      simp [h1, h2, h3, cinv_stop, cinv_restart, h]

lemma cinv_runLoop (toks : List String) (ints : Nat → Int) (pos : Nat) (ls : LoopState)
    (h : CInv ls.ctrl) : CInv (runLoop toks ints pos ls).1.ctrl := by
  induction toks generalizing pos ls with
  | nil => exact h
  | cons t ts ih =>
    simp only [runLoop]
    exact ih _ _ (cinv_loopStep t ints pos ls h)

lemma cinv_mainInit : CInv mainInit.ctrl := by
  constructor
  · right; rfl
  · rfl

lemma reachable_cinv (ls : LoopState) (h : Reachable ls) : CInv ls.ctrl := by
  obtain ⟨toks, ints, pos, hrun⟩ := h
  have := cinv_runLoop toks ints 0 mainInit cinv_mainInit
  rw [hrun] at this
  exact this

lemma nodeCreations_append (l1 l2 : List EngineEvent) :
    nodeCreations (l1 ++ l2) = nodeCreations l1 ++ nodeCreations l2 := by
  simp [nodeCreations, List.filterMap_append]

lemma channelDelays_append (l1 l2 : List EngineEvent) :
    channelDelays (l1 ++ l2) = channelDelays l1 ++ channelDelays l2 := by
  simp [channelDelays, List.filterMap_append]

lemma tapInstalls_append (l1 l2 : List EngineEvent) :
    tapInstalls (l1 ++ l2) = tapInstalls l1 ++ tapInstalls l2 := by
  simp [tapInstalls, List.filterMap_append]

lemma channelInstalls_append (l1 l2 : List EngineEvent) :
    channelInstalls (l1 ++ l2) = channelInstalls l1 + channelInstalls l2 := by
  simp [channelInstalls, List.countP_append]

lemma u32_eq_toNat (n : Int) (h0 : 0 ≤ n) (h1 : n < 2 ^ 31) : u32 n = n.toNat := by
  unfold u32
  have h2 : (2 : Int) ^ 32 = 4294967296 := by norm_num
  have h3 : (2 : Int) ^ 31 = 2147483648 := by norm_num
  rw [h2]
  rw [h3] at h1
  omega

lemma tapInstalls_createSimulation (d n : Int) :
    tapInstalls (createSimulation d n) =
      (List.range n.toNat).map fun i => (i, tapName i) := by
  rw [createSimulation, tapInstalls_append, tapInstalls_append, tapInstalls_tapLoop]
  simp [tapInstalls]

/-! ### Claims -/

/-- C1 counterexample: the claim says `start` with `endpointCount = 0`
fails synchronously with `InvalidConfig` and leaves the session state
unchanged.  In the code, `start_thread(0, 0)` performs no validation: it
spawns and detaches a worker carrying the configuration `(0, 0)`, the
session becomes `Running`, and the controller state changes. -/
theorem C1_counterexample :
    status (start_thread 0 0 initController) = .Running ∧
    lastSpawnCfg (start_thread 0 0 initController).trace = some (0, 0) ∧
    start_thread 0 0 initController ≠ initController := by
  decide

/-- C1 (amended): `start_thread` performs no validation whatsoever: for
every `delay` and `n_nodes` — including `n_nodes ≤ 0` and `delay < 0` —
it unconditionally spawns and detaches a worker carrying exactly that
configuration, changes the controller state, and leaves the session
`Running`; no `InvalidConfig` error path exists in the code. -/
theorem C1_start_no_validation (d n : Int) (s : ControllerState) :
    start_thread d n s ≠ s ∧
    status (start_thread d n s) = .Running ∧
    lastSpawnCfg (start_thread d n s).trace = some (d, n) := by
  refine ⟨?_, status_start d n s, lastSpawnCfg_start d n s⟩
  intro hcontra
  have hc := congrArg ControllerState.nextTid hcontra
  simp [start_thread] at hc

/-- C2: for every valid `SessionConfig` (`0 < n`, `0 ≤ d`, with `n` a
representable C `int`), the worker trace of `createSimulation d n`
starts by configuring the engine for real-time pacing with checksums
disabled, creates exactly `n` nodes, installs exactly one shared CSMA
channel whose delay is `d` milliseconds, bridges node `i` to the tap
device `tap<i>-ns` for `i = 0 .. n-1` (for `n = 3` the names are exactly
`tap0-ns`, `tap1-ns`, `tap2-ns`), and ends by entering the engine's
blocking run loop. -/
theorem C2_worker_trace (d n : Int) (hn : 0 < n) (_hd : 0 ≤ d) (hrange : n < 2 ^ 31) :
    (createSimulation d n).take 2 =
      [.bindSimulatorImpl "ns3::RealtimeSimulatorImpl", .bindChecksum false] ∧
    nodeCreations (createSimulation d n) = [n.toNat] ∧
    channelInstalls (createSimulation d n) = 1 ∧
    channelDelays (createSimulation d n) = [d] ∧
    tapInstalls (createSimulation d n) =
      (List.range n.toNat).map (fun i => (i, tapName i)) ∧
    (∃ setup, createSimulation d n = setup ++ [.simRun, .simDestroy]) ∧
    tapInstalls (createSimulation d 3) = [(0, "tap0-ns"), (1, "tap1-ns"), (2, "tap2-ns")] := by
  refine ⟨rfl, ?_, ?_, ?_, tapInstalls_createSimulation d n, ?_, ?_⟩
  · rw [createSimulation, nodeCreations_append, nodeCreations_append,
      nodeCreations_tapLoop, u32_eq_toNat n (le_of_lt hn) hrange]
    simp [nodeCreations]
  · rw [createSimulation, channelInstalls_append, channelInstalls_append,
      channelInstalls_tapLoop]
    simp [channelInstalls, List.countP_cons, isChannelInstall]
  · rw [createSimulation, channelDelays_append, channelDelays_append,
      channelDelays_tapLoop]
    simp [channelDelays]
  · exact ⟨[.bindSimulatorImpl "ns3::RealtimeSimulatorImpl", .bindChecksum false,
      .createNodes (u32 n), .setChannelDelayMillis d, .installCsma] ++ tapLoop n.toNat,
      by simp [createSimulation]⟩
  · rw [tapInstalls_createSimulation d 3]
    decide

/-- C2 witness at the concrete valid configuration `d = 0`, `n = 3`. -/
theorem C2_worker_trace_witness :
    ((0 : Int) < 3 ∧ (0 : Int) ≤ 0 ∧ (3 : Int) < 2 ^ 31) ∧
    tapInstalls (createSimulation 0 3) = [(0, "tap0-ns"), (1, "tap1-ns"), (2, "tap2-ns")] :=
  ⟨⟨by decide, by decide, by decide⟩,
   (C2_worker_trace 0 3 (by decide) (by decide) (by decide)).2.2.2.2.2.2⟩

/-- C3: `restart_thread(d, n)` is exactly `stop_thread()` followed by
`start_thread(d, n)` on the resulting state, and the resulting session
carries exactly the new configuration `(d, n)` — never a hybrid — and is
`Running`. -/
theorem C3_restart_is_stop_then_start (d n : Int) (s : ControllerState) :
    restart_thread d n s = start_thread d n (stop_thread s) ∧
    lastSpawnCfg (restart_thread d n s).trace = some (d, n) ∧
    status (restart_thread d n s) = .Running :=
  ⟨rfl, lastSpawnCfg_restart d n s, status_restart d n s⟩

/-- C4: every call to `stop_thread` extends the controller trace with,
in order: the abrupt cancellation request `pthread_cancel` aimed at the
worker handle, then `Simulator::Stop()`, then `Simulator::Destroy()` —
all issued from the calling (main) thread. -/
theorem C4_stop_order (s : ControllerState) :
    (stop_thread s).trace =
      s.trace ++ [.cancel s.native_handler, .simStop, .simDestroy] := rfl

/-- C5: on token `chgd`, the command loop reads one integer `d` from the
input stream and calls `restart_thread(d, n_nodes)` with the unchanged
current endpoint count, so the new session's configuration is exactly
`(d, current n_nodes)`; the loop's `delay` variable is updated to `d`
and one integer is consumed. -/
theorem C5_chgd_restarts_with_current_count (ints : Nat → Int) (pos : Nat)
    (ls : LoopState) :
    loopStep "chgd" ints pos ls =
      ({ delay := ints pos, n_nodes := ls.n_nodes,
         ctrl := restart_thread (ints pos) ls.n_nodes ls.ctrl }, pos + 1) ∧
    lastSpawnCfg (loopStep "chgd" ints pos ls).1.ctrl.trace =
      some (ints pos, ls.n_nodes) := by
  have h : loopStep "chgd" ints pos ls =
      ({ delay := ints pos, n_nodes := ls.n_nodes,
         ctrl := restart_thread (ints pos) ls.n_nodes ls.ctrl }, pos + 1) := by
    simp [loopStep]
  refine ⟨h, ?_⟩
  rw [h]
  exact lastSpawnCfg_restart (ints pos) ls.n_nodes ls.ctrl

/-- C6 counterexample: the claim says `stop` on an already-stopped
session is a no-op.  In the code it is not: starting from the stopped
state reached by `stop_thread` on `main`'s initial state, a second
`stop_thread` still changes the controller trace (it re-issues
`pthread_cancel` on the stale handle, `Simulator::Stop()` and
`Simulator::Destroy()`), even though the status stays `Stopped`. -/
theorem C6_counterexample :
    status (stop_thread mainInit.ctrl) = .Stopped ∧
    (stop_thread (stop_thread mainInit.ctrl)).trace ≠ (stop_thread mainInit.ctrl).trace := by
  decide

/-- C6 (amended): calling `stop_thread` when the session status is
already `Stopped` does not raise and leaves the session state proper —
status (still `Stopped`), worker-handle slot, thread counter, live set —
unchanged; but it is not a pure no-op: it still issues `pthread_cancel`
on the stale handle followed by the engine stop/teardown calls. -/
theorem C6_stop_when_stopped (s : ControllerState) (h : status s = .Stopped) :
    status (stop_thread s) = .Stopped ∧
    (stop_thread s).native_handler = s.native_handler ∧
    (stop_thread s).nextTid = s.nextTid ∧
    (stop_thread s).live = s.live ∧
    (stop_thread s).trace = s.trace ++ [.cancel s.native_handler, .simStop, .simDestroy] := by
  have hlive : s.live = [] := by
    by_cases hl : s.live = []
    · exact hl
    · simp [status, hl] at h
  refine ⟨?_, rfl, rfl, ?_, rfl⟩
  · simp [status, stop_thread, hlive]
  · simp [stop_thread, hlive]

/-- C6 witness at the concrete stopped state reached by one
`stop_thread` from `main`'s initial state. -/
theorem C6_stop_when_stopped_witness :
    status (stop_thread mainInit.ctrl) = .Stopped ∧
    (status (stop_thread (stop_thread mainInit.ctrl)) = .Stopped ∧
     (stop_thread (stop_thread mainInit.ctrl)).native_handler =
       (stop_thread mainInit.ctrl).native_handler ∧
     (stop_thread (stop_thread mainInit.ctrl)).nextTid =
       (stop_thread mainInit.ctrl).nextTid ∧
     (stop_thread (stop_thread mainInit.ctrl)).live = (stop_thread mainInit.ctrl).live ∧
     (stop_thread (stop_thread mainInit.ctrl)).trace =
       (stop_thread mainInit.ctrl).trace ++
         [.cancel (stop_thread mainInit.ctrl).native_handler, .simStop, .simDestroy]) :=
  ⟨by decide, C6_stop_when_stopped (stop_thread mainInit.ctrl) (by decide)⟩

/-- C7: in every state reachable by any finite sequence of command-loop
inputs (each of which can only invoke `stop_thread` or `restart_thread`,
after the initial `start_thread`), at most one worker thread is live —
at most one session is `Running` at any instant (cancellation modelled
as immediately effective, matching the spec's abstraction that
`status = Stopped` once `stop` returns). -/
theorem C7_at_most_one_running (ls : LoopState) (h : Reachable ls) :
    ls.ctrl.live.length ≤ 1 := by
  rcases (reachable_cinv ls h).1 with h0 | h1
  · simp [h0]
  · simp [h1]

/-- C7 witness: `main`'s initial state is reachable (empty input) and
has at most one live worker. -/
theorem C7_at_most_one_running_witness :
    Reachable mainInit ∧ mainInit.ctrl.live.length ≤ 1 :=
  ⟨⟨[], fun _ => 0, 0, rfl⟩,
   C7_at_most_one_running mainInit ⟨[], fun _ => 0, 0, rfl⟩⟩

/-- C8: for every input token other than `stop`, `chgd` and `chgn`, one
command-loop iteration makes no controller call, consumes no integer
input, and leaves the loop state (loop variables and controller state)
completely unchanged. -/
theorem C8_unknown_token_ignored (tok : String) (ints : Nat → Int) (pos : Nat)
    (ls : LoopState) (h1 : tok ≠ "stop") (h2 : tok ≠ "chgd") (h3 : tok ≠ "chgn") :
    loopStep tok ints pos ls = (ls, pos) := by
  simp [loopStep, h1, h2, h3]

/-- C8 witness at the concrete unrecognized token `foo`. -/
theorem C8_unknown_token_ignored_witness :
    ("foo" ≠ "stop" ∧ "foo" ≠ "chgd" ∧ "foo" ≠ "chgn") ∧
    loopStep "foo" (fun _ => 0) 0 mainInit = (mainInit, 0) :=
  ⟨⟨by decide, by decide, by decide⟩,
   C8_unknown_token_ignored "foo" (fun _ => 0) 0 mainInit (by decide) (by decide) (by decide)⟩

/-- C9: at the top of `main`'s command loop — before any operator
command is read — a session has already been started with the fixed
default configuration `delay = 0`, `n_nodes = 3`: the loop variables
hold those defaults, the most recent (only) worker spawn carries
`(0, 3)`, and the session is `Running`. -/
theorem C9_startup_default_session :
    mainInit.delay = 0 ∧ mainInit.n_nodes = 3 ∧
    lastSpawnCfg mainInit.ctrl.trace = some (0, 3) ∧
    status mainInit.ctrl = .Running ∧
    mainInit.ctrl = start_thread 0 3 initController := by
  decide

/-- C10: there is a single worker-handle slot (`native_handler`): every
`start_thread` overwrites it with the freshly spawned thread's id, with
the spawn recorded before the detach; and in every reachable state the
slot holds the id of the most recently spawned worker, so `stop_thread`
always aims its cancellation at the most recently started worker and
never at an earlier one. -/
theorem C10_single_handle_slot (d n : Int) (s : ControllerState) (ls : LoopState)
    (h : Reachable ls) :
    (start_thread d n s).native_handler = s.nextTid ∧
    (start_thread d n s).trace =
      s.trace ++ [.spawnWorker d n s.nextTid, .detach s.nextTid] ∧
    lastSpawnTid ls.ctrl.trace = some ls.ctrl.native_handler ∧
    (stop_thread ls.ctrl).trace =
      ls.ctrl.trace ++ [.cancel ls.ctrl.native_handler, .simStop, .simDestroy] :=
  ⟨rfl, rfl, (reachable_cinv ls h).2, rfl⟩

/-- C10 witness: instantiated at `main`'s reachable initial state. -/
theorem C10_single_handle_slot_witness :
    Reachable mainInit ∧
    lastSpawnTid mainInit.ctrl.trace = some mainInit.ctrl.native_handler :=
  ⟨⟨[], fun _ => 0, 0, rfl⟩,
   (C10_single_handle_slot 0 0 initController mainInit ⟨[], fun _ => 0, 0, rfl⟩).2.2.1⟩

end TapCsma
